import Mathlib

/-!
Verification development for the TaxiScheduling repository
(`src/scenarios.py`, `src/main.py`, `src/constraints.py`).

The repository builds a mixed-integer linear model for aircraft taxi
scheduling.  We shallowly embed the model-construction pipeline:

* `find_paths` / `generate_route_data` (src/scenarios.py) as executable
  Lean functions on the same data;
* the decision-variable index sets that `TaxiSchedulingModel.scenario_setup`
  (src/main.py) allocates;
* each active constraint family of src/constraints.py as a function
  producing a list of constraints, a constraint being a family tag together
  with a decidable satisfaction predicate on assignments of rational values
  to the decision variables (Gurobi's continuous variables are modelled by
  `ℚ`; binaries by `ℚ` values constrained to {0,1} through the
  admissibility predicate that mirrors the `vtype=GRB.BINARY` /
  `GRB.CONTINUOUS` declarations, continuous variables having Gurobi's
  default lower bound 0).

Numeric parameters of the scenarios are integers (or the float 1e6 for M,
and 9.03/5.97 in the Dusseldorf data), all exactly representable, so `ℚ`
models the Python floats faithfully on every computation appearing here.
-/

set_option maxRecDepth 16000

namespace TaxiScheduling

abbrev Node := Nat
abbrev Edge := Nat × Nat

/-- A route dict `{"nodes": [...], "edges": [...]}` as built by
`generate_route_data` / hard-coded in `Scenario1.get_parameters`. -/
structure Route where
  nodes : List Node
  edges : List Edge
deriving DecidableEq, Repr

/-- The `aircraft_data` dictionary of a scenario (src/scenarios.py).
Per-aircraft dictionaries are modelled as total functions; every access the
embedded code performs is at a key the scenarios populate. -/
structure AircraftData where
  aircraft : List Nat
  departures : List Nat
  arrivals : List Nat
  origin : Nat → Node
  destination : Nat → Node
  PBT : Nat → ℚ
  ETD : Nat → ℚ

/-- The `graph_data` dictionary of a scenario.  `length`, `Smax`, `Smin` are
total functions on edges; the code only ever looks up listed pairs.
Runway-related fields not consumed by the active constraint families are
omitted except `exit_edges`, which the Capacity analysis uses. -/
structure GraphData where
  nodes : List Node
  edges : List Edge
  length : Edge → ℚ
  Smax : Edge → ℚ
  Smin : Edge → ℚ
  Sep : ℚ
  exit_edges : List Edge := []

/-- `find_paths` (src/scenarios.py lines 11-37), fuel-indexed.  The Python
recursion terminates because each call appends the fresh node `start` to
`path` and recurses only when `start` is in `graph_data["nodes"]`, so the
recursion depth never exceeds the number of graph nodes plus two; the
wrapper `find_paths` below passes exactly that bound as fuel, which
therefore never runs out on any input. -/
def findPathsAux (gd : GraphData) : Nat → Node → Node → List Node → List (List Node)
  | 0, _, _, _ => []
  | fuel + 1, start, goal, path0 =>
    let path := path0 ++ [start]
    if start = goal then [path]
    else if start ∉ gd.nodes then []
    else
      gd.edges.foldr (fun e acc =>
        (if e.1 = start ∧ e.2 ∉ path then findPathsAux gd fuel e.2 goal path
         else if e.2 = start ∧ e.1 ∉ path then findPathsAux gd fuel e.1 goal path
         else []) ++ acc) []

/-- `find_paths(graph_data, start, end)` with the default `path=[]`. -/
def find_paths (gd : GraphData) (start goal : Node) : List (List Node) :=
  findPathsAux gd (gd.nodes.length + 2) start goal []

/-- The edge list `[(path[i], path[i+1]) for i in range(len(path)-1)]`. -/
def pathEdges (p : List Node) : List Edge := p.zip p.tail

/-- Deduplication keeping the first occurrence of every element in order of
first appearance, as Python's `list(dict.fromkeys(...))` does. -/
def dedupKeepFirst {α : Type} [DecidableEq α] : List α → List α
  | [] => []
  | a :: l => a :: (dedupKeepFirst l).filter (fun b => decide (b ≠ a))

/-- Ascending insertion used to model a set's enumeration. -/
def insertAsc (x : Node) : List Node → List Node
  | [] => [x]
  | y :: l => if x ≤ y then x :: y :: l else y :: insertAsc x l

/-- Model of `list(set_of_nodes)`: a Python set's iteration order is
implementation-defined, so the materialised list is modelled as the
ascending enumeration of the set's elements; the repository's code only
ever uses this list through membership tests (`in`). -/
def setList (l : List Node) : List Node :=
  (dedupKeepFirst l).foldr insertAsc []

/-- The three per-aircraft values the `generate_route_data` loop body
(src/scenarios.py lines 55-78) computes for one aircraft: its route list,
`all_edges_per_aircraft` entry and `all_nodes_per_aircraft` entry. -/
def routeEntry (gd : GraphData) (origin destination : Node) :
    List Route × List Edge × List Node :=
  let paths := find_paths gd origin destination
  let routes := paths.map (fun p => { nodes := p, edges := pathEdges p : Route })
  let all_edges := dedupKeepFirst (paths.foldr (fun p acc => pathEdges p ++ acc) [])
  let all_nodes := setList (all_edges.foldr (fun e acc => e.1 :: e.2 :: acc) [])
  (routes, all_edges, all_nodes)

/-- The `route_data` dictionary: per-aircraft routes, footprint edges and
footprint nodes, indexed by aircraft id. -/
structure RouteData where
  routes : Nat → List Route
  all_edges_per_aircraft : Nat → List Edge
  all_nodes_per_aircraft : Nat → List Node

/-- `generate_route_data(aircraft_data, graph_data)` (src/scenarios.py
lines 40-80). -/
def generate_route_data (ad : AircraftData) (gd : GraphData) : RouteData where
  routes := fun i => (routeEntry gd (ad.origin i) (ad.destination i)).1
  all_edges_per_aircraft := fun i => (routeEntry gd (ad.origin i) (ad.destination i)).2.1
  all_nodes_per_aircraft := fun i => (routeEntry gd (ad.origin i) (ad.destination i)).2.2

/-! ## The model: decision variables, constraints, allocation

`TaxiSchedulingModel.scenario_setup` (src/main.py lines 24-72) merges
`aircraft_data | graph_data | route_data` with the decision variables into
one dictionary.  We bundle the three data dictionaries into `Instance`. -/

/-- The merged scenario data used by the constraint classes. -/
structure Instance where
  ad : AircraftData
  gd : GraphData
  rd : RouteData

/-- A solver assignment of rational values to the four decision-variable
families `Z`, `Gamma`, `rho`, `t`. -/
structure Assignment where
  Z : Nat → Nat → Node → ℚ
  Gamma : Nat → Nat → ℚ
  rho : Nat → Nat → ℚ
  t : Nat → Node → ℚ

/-- The eight constraint classes of src/constraints.py. -/
inductive Family
  | domain | sequencing | overtaking | release | speed | separation
  | runwayOccupancy | capacity
deriving DecidableEq, Repr

/-- One emitted constraint: its family and its (decidable) satisfaction
predicate over assignments. -/
structure Constr where
  fam : Family
  sat : Assignment → Bool

/-- `M = 1e6` (src/main.py line 35). -/
def M : ℚ := 1000000

/-- `quicksum(Gamma[i,r] for r in range(len(routes)) if u in routes[r]["nodes"])`. -/
def routeNodeSum (a : Assignment) (i : Nat) (routes : List Route) (u : Node) : ℚ :=
  (((List.range routes.length).filter
      (fun r => decide (u ∈ (routes.getD r { nodes := [], edges := [] }).nodes))).map
    (fun r => a.Gamma i r)).sum

/-- `quicksum(Gamma[i,r] for r in range(len(routes)) if (u,v) in routes[r]["edges"])`. -/
def routeEdgeSum (a : Assignment) (i : Nat) (routes : List Route) (e : Edge) : ℚ :=
  (((List.range routes.length).filter
      (fun r => decide (e ∈ (routes.getD r { nodes := [], edges := [] }).edges))).map
    (fun r => a.Gamma i r)).sum

/-- `quicksum(Gamma[i,r] for r in range(len(routes)))`. -/
def gammaTotal (a : Assignment) (i : Nat) (routes : List Route) : ℚ :=
  ((List.range routes.length).map (fun r => a.Gamma i r)).sum

/-- The shared-footprint node list
`[item for item in all_nodes_per_aircraft[i] if item in all_nodes_per_aircraft[j]]`. -/
def sharedNodes (rd : RouteData) (i j : Nat) : List Node :=
  (rd.all_nodes_per_aircraft i).filter (fun u => decide (u ∈ rd.all_nodes_per_aircraft j))

/-- The shared-footprint edge list
`[item for item in all_edges_per_aircraft[i] if item in all_edges_per_aircraft[j]]`. -/
def sharedEdges (rd : RouteData) (i j : Nat) : List Edge :=
  (rd.all_edges_per_aircraft i).filter (fun e => decide (e ∈ rd.all_edges_per_aircraft j))

/-- `Domain.add_constraints` (src/constraints.py lines 26-111; equations 1-4
are commented out in the source).  First the route-selection equalities
(equation 6), then the `Z`-activation upper bounds (equations 7 and 8) per
ordered pair of distinct aircraft and shared footprint node. -/
def domainConstraints (inst : Instance) : List Constr :=
  (inst.ad.aircraft.map (fun i =>
    { fam := Family.domain,
      sat := fun a => decide (gammaTotal a i (inst.rd.routes i) = 1) })) ++
  (inst.ad.aircraft.flatMap (fun i => inst.ad.aircraft.flatMap (fun j =>
    if i ≠ j then
      (sharedNodes inst.rd i j).flatMap (fun u =>
        [{ fam := Family.domain,
           sat := fun a => decide (a.Z i j u ≤ routeNodeSum a i (inst.rd.routes i) u) },
         { fam := Family.domain,
           sat := fun a => decide (a.Z i j u ≤ routeNodeSum a j (inst.rd.routes j) u) }])
    else [])))

/-- `Sequencing.add_constraints` (src/constraints.py lines 114-142):
equations 9 and 10 per ordered pair of distinct aircraft and shared node. -/
def sequencingConstraints (inst : Instance) : List Constr :=
  inst.ad.aircraft.flatMap (fun i => inst.ad.aircraft.flatMap (fun j =>
    if i ≠ j then
      (sharedNodes inst.rd i j).flatMap (fun u =>
        [{ fam := Family.sequencing,
           sat := fun a => decide (a.Z i j u + a.Z j i u ≤
             3 - (routeNodeSum a i (inst.rd.routes i) u +
                  routeNodeSum a j (inst.rd.routes j) u)) },
         { fam := Family.sequencing,
           sat := fun a => decide (a.Z i j u + a.Z j i u ≥
             2 * (routeNodeSum a i (inst.rd.routes i) u +
                  routeNodeSum a j (inst.rd.routes j) u) - 3) }])
    else []))

/-- `Overtaking.add_constraints` (src/constraints.py lines 145-198):
equations 11/12 over shared directed footprint edges, then the head-on
equations 13/14 over opposed edge pairs. -/
def overtakingConstraints (inst : Instance) : List Constr :=
  (inst.ad.aircraft.flatMap (fun i => inst.ad.aircraft.flatMap (fun j =>
    if i ≠ j then
      (sharedEdges inst.rd i j).flatMap (fun e =>
        [{ fam := Family.overtaking,
           sat := fun a => decide (a.Z i j e.1 - a.Z i j e.2 ≤
             2 - (routeEdgeSum a i (inst.rd.routes i) e +
                  routeEdgeSum a j (inst.rd.routes j) e)) },
         { fam := Family.overtaking,
           sat := fun a => decide (a.Z i j e.1 - a.Z i j e.2 ≥
             (routeEdgeSum a i (inst.rd.routes i) e +
              routeEdgeSum a j (inst.rd.routes j) e) - 2) }])
    else []))) ++
  (inst.ad.aircraft.flatMap (fun i => inst.ad.aircraft.flatMap (fun j =>
    if i ≠ j then
      (inst.rd.all_edges_per_aircraft i).flatMap (fun e =>
        if (e.2, e.1) ∈ inst.rd.all_edges_per_aircraft j then
          [{ fam := Family.overtaking,
             sat := fun a => decide (a.Z i j e.1 - a.Z j i e.2 ≤
               2 - (routeEdgeSum a i (inst.rd.routes i) e +
                    routeEdgeSum a j (inst.rd.routes j) (e.2, e.1))) },
           { fam := Family.overtaking,
             sat := fun a => decide (a.Z i j e.1 + a.Z j i e.2 ≥
               (routeEdgeSum a i (inst.rd.routes i) e +
                routeEdgeSum a j (inst.rd.routes j) (e.2, e.1)) - 2) }]
        else [])
    else [])))

/-- `Release.add_constraints` (src/constraints.py lines 201-216):
equation 15 for arrivals, then equation 16 for departures. -/
def releaseConstraints (inst : Instance) : List Constr :=
  (inst.ad.arrivals.map (fun j =>
    { fam := Family.release,
      sat := fun a => decide (a.t j (inst.ad.origin j) ≥ inst.ad.ETD j) })) ++
  (inst.ad.departures.map (fun i =>
    { fam := Family.release,
      sat := fun a => decide (a.t i (inst.ad.origin i) ≥ inst.ad.PBT i) }))

/-- `Speed.add_constraints` (the active class, src/constraints.py
lines 238-279): per aircraft and footprint edge `(u,v)`, with
`(x,y) = (min(u,v), max(u,v))` used for the length/speed lookups, the
maximum-speed constraint then the minimum-speed constraint. -/
def speedConstraints (inst : Instance) : List Constr :=
  inst.ad.aircraft.flatMap (fun i =>
    (inst.rd.all_edges_per_aircraft i).flatMap (fun e =>
      let x := min e.1 e.2
      let y := max e.1 e.2
      [{ fam := Family.speed,
         sat := fun a => decide (a.t i e.2 - a.t i e.1 ≤
           (inst.gd.length (x, y) / inst.gd.Smax (x, y)) *
             (M - M * routeEdgeSum a i (inst.rd.routes i) e +
              routeEdgeSum a i (inst.rd.routes i) e)) },
       { fam := Family.speed,
         sat := fun a => decide (a.t i e.2 - a.t i e.1 ≥
           (inst.gd.length (x, y) / inst.gd.Smin (x, y)) *
             (M * routeEdgeSum a i (inst.rd.routes i) e - M +
              routeEdgeSum a i (inst.rd.routes i) e)) }]))

/-- `Separation.add_constraints` (the active class, src/constraints.py
lines 316-373): equation 23 over footprint edges of `i` whose tail is a
shared node, then equation 24 over footprint edges of `j` whose head is a
shared node. -/
def separationConstraints (inst : Instance) : List Constr :=
  (inst.ad.aircraft.flatMap (fun i => inst.ad.aircraft.flatMap (fun j =>
    if i ≠ j then
      (inst.rd.all_edges_per_aircraft i).flatMap (fun e =>
        if e.1 ∈ sharedNodes inst.rd i j then
          let x := min e.1 e.2
          let y := max e.1 e.2
          [{ fam := Family.separation,
             sat := fun a => decide (a.t j e.1 - a.t i e.1 -
               (inst.gd.Sep / inst.gd.length (x, y)) * (a.t i e.2 - a.t i e.1) ≥
               -M * (3 - (a.Z i j e.1 +
                 routeEdgeSum a i (inst.rd.routes i) e +
                 routeNodeSum a j (inst.rd.routes j) e.1))) }]
        else [])
    else []))) ++
  (inst.ad.aircraft.flatMap (fun i => inst.ad.aircraft.flatMap (fun j =>
    if i ≠ j then
      (inst.rd.all_edges_per_aircraft j).flatMap (fun e =>
        if e.2 ∈ sharedNodes inst.rd i j then
          let x := min e.1 e.2
          let y := max e.1 e.2
          [{ fam := Family.separation,
             sat := fun a => decide (a.t i e.2 - a.t j e.2 -
               (inst.gd.Sep / inst.gd.length (x, y)) * (a.t j e.2 - a.t j e.1) ≥
               -M * (3 - (a.Z j i e.2 +
                 routeEdgeSum a j (inst.rd.routes j) e +
                 routeNodeSum a i (inst.rd.routes i) e.2))) }]
        else [])
    else [])))

/-- The `constraint_classes` list of `TaxiSchedulingModel.constraints_setup`
(src/main.py lines 79-88): Domain, Sequencing, Overtaking, Release, Speed,
Separation; `RunwayOccupancy` and `Capacity` are commented out there. -/
def constraintClasses : List (Instance → List Constr) :=
  [domainConstraints, sequencingConstraints, overtakingConstraints,
   releaseConstraints, speedConstraints, separationConstraints]

/-- The full constraint set the model build emits. -/
def build (inst : Instance) : List Constr :=
  constraintClasses.flatMap (fun f => f inst)

/-- An assignment satisfies every constraint of a list. -/
def satAll (cs : List Constr) (a : Assignment) : Bool :=
  cs.all (fun c => c.sat a)

/-! ### Variable allocation (src/main.py lines 37-69) -/

/-- The index set of `Z`:
`[(i, j, u) for i in aircraft for j in aircraft if i != j for u in nodes]`. -/
def zIndex (inst : Instance) : List (Nat × Nat × Node) :=
  inst.ad.aircraft.flatMap (fun i => inst.ad.aircraft.flatMap (fun j =>
    if i ≠ j then inst.gd.nodes.map (fun u => (i, j, u)) else []))

/-- The index set of `Gamma`:
`[(i, r) for i in aircraft for r in range(len(routes[i]))]`. -/
def gammaIndex (inst : Instance) : List (Nat × Nat) :=
  inst.ad.aircraft.flatMap (fun i =>
    (List.range (inst.rd.routes i).length).map (fun r => (i, r)))

/-- The index set of `rho`:
`[(i, j) for i in aircraft for j in aircraft if i != j]`. -/
def rhoIndex (inst : Instance) : List (Nat × Nat) :=
  inst.ad.aircraft.flatMap (fun i => inst.ad.aircraft.flatMap (fun j =>
    if i ≠ j then [(i, j)] else []))

/-- The index set of `t`: `[(i, u) for i in aircraft for u in nodes]`. -/
def tIndex (inst : Instance) : List (Nat × Node) :=
  inst.ad.aircraft.flatMap (fun i => inst.gd.nodes.map (fun u => (i, u)))

/-- An assignment respects the variable declarations of `scenario_setup`:
every allocated `Z`, `Gamma`, `rho` is binary (`vtype=GRB.BINARY`) and every
allocated `t` respects Gurobi's default lower bound 0 for continuous
variables. -/
def admissible (inst : Instance) (a : Assignment) : Bool :=
  ((zIndex inst).all (fun k => decide (a.Z k.1 k.2.1 k.2.2 = 0 ∨ a.Z k.1 k.2.1 k.2.2 = 1))) &&
  ((gammaIndex inst).all (fun k => decide (a.Gamma k.1 k.2 = 0 ∨ a.Gamma k.1 k.2 = 1))) &&
  ((rhoIndex inst).all (fun k => decide (a.rho k.1 k.2 = 0 ∨ a.rho k.1 k.2 = 1))) &&
  ((tIndex inst).all (fun k => decide (0 ≤ a.t k.1 k.2)))

/-! ## Concrete inputs

`scenario1Graph` is the 5-node reference graph of `Scenario1.get_parameters`
(src/scenarios.py lines 125-144).  The other instances are small scenario
inputs used to settle the universally-quantified claims at concrete data. -/

/-- The `graph_data` of scenario_1. -/
def scenario1Graph : GraphData where
  nodes := [1, 2, 3, 4, 5]
  edges := [(1, 2), (2, 3), (3, 4), (4, 5), (1, 4), (4, 3), (3, 5), (3, 2), (2, 5)]
  length := fun e =>
    match e with
    | (1, 2) => 100 | (2, 3) => 150 | (3, 4) => 200 | (4, 5) => 250
    | (1, 4) => 180 | (4, 3) => 140 | (3, 5) => 220 | (3, 2) => 130 | (2, 5) => 210
    | _ => 0
  Smax := fun _ => 15
  Smin := fun _ => 5
  Sep := 5

/-- A two-aircraft scenario input: aircraft 1 taxis 1→2, aircraft 2 taxis
2→3 on the path graph 1—2—3.  `Smax = Smin = 5` keeps the speed window
non-empty. -/
def tinyAD : AircraftData where
  aircraft := [1, 2]
  departures := [1, 2]
  arrivals := []
  origin := fun i => if i = 1 then 1 else 2
  destination := fun i => if i = 1 then 2 else 3
  PBT := fun _ => 0
  ETD := fun _ => 0

/-- The graph of the two-aircraft scenario. -/
def tinyGD : GraphData where
  nodes := [1, 2, 3]
  edges := [(1, 2), (2, 3)]
  length := fun _ => 10
  Smax := fun _ => 5
  Smin := fun _ => 5
  Sep := 5

/-- The two-aircraft instance, with route data generated exactly as
`generate_route_data` produces it. -/
def tinyInst : Instance where
  ad := tinyAD
  gd := tinyGD
  rd := generate_route_data tinyAD tinyGD

/-- A satisfying assignment for `build tinyInst`: both aircraft take their
only route; aircraft 1 passes node 2 at time 2, aircraft 2 leaves node 2 at
time 3 (respecting separation 5 over the length-10 edge); `Z[1,2,2] = 1`
sequences aircraft 1 first at the shared node 2, and `Z[1,2,3] = 1` at node
3, a node outside aircraft 1's footprint, is touched by no constraint. -/
def cexA : Assignment where
  Z := fun i j u => if i = 1 ∧ j = 2 ∧ (u = 2 ∨ u = 3) then 1 else 0
  Gamma := fun _ r => if r = 0 then 1 else 0
  rho := fun _ _ => 0
  t := fun i u =>
    if i = 1 ∧ u = 2 then 2
    else if i = 2 ∧ u = 2 then 3
    else if i = 2 ∧ u = 3 then 5
    else 0

/-- A one-aircraft scenario with scenario_1's speed parameters
(`Smax = 15`, `Smin = 5`) and a single length-100 edge. -/
def speedAD : AircraftData where
  aircraft := [1]
  departures := [1]
  arrivals := []
  origin := fun _ => 1
  destination := fun _ => 2
  PBT := fun _ => 0
  ETD := fun _ => 0

/-- The one-edge graph of the speed scenario. -/
def speedGD : GraphData where
  nodes := [1, 2]
  edges := [(1, 2)]
  length := fun _ => 100
  Smax := fun _ => 15
  Smin := fun _ => 5
  Sep := 5

/-- The one-aircraft speed instance. -/
def speedInst : Instance where
  ad := speedAD
  gd := speedGD
  rd := generate_route_data speedAD speedGD

/-- A scenario whose single aircraft has origin 1 and destination 3 in a
graph whose only edge is (1,2): no path exists. -/
def discAD : AircraftData where
  aircraft := [1]
  departures := [1]
  arrivals := []
  origin := fun _ => 1
  destination := fun _ => 3
  PBT := fun _ => 0
  ETD := fun _ => 0

/-- The disconnected graph. -/
def discGD : GraphData where
  nodes := [1, 2, 3]
  edges := [(1, 2)]
  length := fun _ => 10
  Smax := fun _ => 5
  Smin := fun _ => 5
  Sep := 5

/-- The no-route instance. -/
def discInst : Instance where
  ad := discAD
  gd := discGD
  rd := generate_route_data discAD discGD

/-- A scenario whose aircraft 7 has origin = destination = 4: its only
candidate route is the trivial single-node path. -/
def trivAD : AircraftData where
  aircraft := [7]
  departures := [7]
  arrivals := []
  origin := fun _ => 4
  destination := fun _ => 4
  PBT := fun _ => 0
  ETD := fun _ => 0

/-- The one-node graph of the trivial-route scenario. -/
def trivGD : GraphData where
  nodes := [4]
  edges := []
  length := fun _ => 1
  Smax := fun _ => 1
  Smin := fun _ => 1
  Sep := 1

/-! ## Helper lemmas -/

lemma satAll_mem {cs : List Constr} {a : Assignment} (h : satAll cs a = true)
    {c : Constr} (hc : c ∈ cs) : c.sat a = true :=
  List.all_eq_true.mp h c hc

lemma mem_build {inst : Instance} {f : Instance → List Constr}
    (hf : f ∈ constraintClasses) {c : Constr} (hc : c ∈ f inst) : c ∈ build inst :=
  List.mem_flatMap.mpr ⟨f, hf, hc⟩

lemma satAll_sub {inst : Instance} {a : Assignment} {f : Instance → List Constr}
    (h : satAll (build inst) a = true) (hf : f ∈ constraintClasses) :
    satAll (f inst) a = true := by
  rw [satAll, List.all_eq_true]
  exact fun c hc => satAll_mem h (mem_build hf hc)

lemma domain_mem_classes : domainConstraints ∈ constraintClasses := List.Mem.head _

lemma sequencing_mem_classes : sequencingConstraints ∈ constraintClasses :=
  List.Mem.tail _ (List.Mem.head _)

lemma mem_pairLoop {A : List Nat} {g : Nat → Nat → List Constr} {i j : Nat}
    (hi : i ∈ A) (hj : j ∈ A) (hij : i ≠ j) {c : Constr} (hc : c ∈ g i j) :
    c ∈ A.flatMap (fun x => A.flatMap (fun y => if x ≠ y then g x y else [])) :=
  List.mem_flatMap.mpr ⟨i, hi, List.mem_flatMap.mpr ⟨j, hj, by rw [if_pos hij]; exact hc⟩⟩

lemma mem_sharedNodes {rd : RouteData} {i j : Nat} {u : Node}
    (hui : u ∈ rd.all_nodes_per_aircraft i) (huj : u ∈ rd.all_nodes_per_aircraft j) :
    u ∈ sharedNodes rd i j :=
  List.mem_filter.mpr ⟨hui, decide_eq_true huj⟩

/-- Equation 6 forces the route-selection sum of every listed aircraft. -/
lemma domain_route_sel {inst : Instance} {a : Assignment}
    (h : satAll (domainConstraints inst) a = true) {i : Nat}
    (hi : i ∈ inst.ad.aircraft) : gammaTotal a i (inst.rd.routes i) = 1 := by
  have hc : ({ fam := Family.domain,
               sat := fun a => decide (gammaTotal a i (inst.rd.routes i) = 1) } : Constr) ∈
      domainConstraints inst :=
    List.mem_append_left _ (List.mem_map.mpr ⟨i, hi, rfl⟩)
  exact of_decide_eq_true (satAll_mem h hc)

/-- Equations 7 and 8 bound `Z[i,j,u]` by both route-membership sums. -/
lemma domain_z_bounds {inst : Instance} {a : Assignment}
    (h : satAll (domainConstraints inst) a = true) {i j : Nat} {u : Node}
    (hi : i ∈ inst.ad.aircraft) (hj : j ∈ inst.ad.aircraft) (hij : i ≠ j)
    (hui : u ∈ inst.rd.all_nodes_per_aircraft i)
    (huj : u ∈ inst.rd.all_nodes_per_aircraft j) :
    a.Z i j u ≤ routeNodeSum a i (inst.rd.routes i) u ∧
    a.Z i j u ≤ routeNodeSum a j (inst.rd.routes j) u := by
  have hu := mem_sharedNodes hui huj
  constructor
  · exact of_decide_eq_true (satAll_mem h (List.mem_append_right _
      (mem_pairLoop hi hj hij
        (List.mem_flatMap.mpr ⟨u, hu, List.mem_cons_self _ _⟩))))
  · exact of_decide_eq_true (satAll_mem h (List.mem_append_right _
      (mem_pairLoop hi hj hij
        (List.mem_flatMap.mpr ⟨u, hu,
          List.mem_cons_of_mem _ (List.mem_cons_self _ _)⟩))))

/-- Equations 9 and 10 bound `Z[i,j,u] + Z[j,i,u]`. -/
lemma sequencing_bounds {inst : Instance} {a : Assignment}
    (h : satAll (sequencingConstraints inst) a = true) {i j : Nat} {u : Node}
    (hi : i ∈ inst.ad.aircraft) (hj : j ∈ inst.ad.aircraft) (hij : i ≠ j)
    (hui : u ∈ inst.rd.all_nodes_per_aircraft i)
    (huj : u ∈ inst.rd.all_nodes_per_aircraft j) :
    a.Z i j u + a.Z j i u ≤
      3 - (routeNodeSum a i (inst.rd.routes i) u + routeNodeSum a j (inst.rd.routes j) u) ∧
    a.Z i j u + a.Z j i u ≥
      2 * (routeNodeSum a i (inst.rd.routes i) u + routeNodeSum a j (inst.rd.routes j) u) - 3 := by
  have hu := mem_sharedNodes hui huj
  constructor
  · exact of_decide_eq_true (satAll_mem h (mem_pairLoop hi hj hij
      (List.mem_flatMap.mpr ⟨u, hu, List.mem_cons_self _ _⟩)))
  · exact of_decide_eq_true (satAll_mem h (mem_pairLoop hi hj hij
      (List.mem_flatMap.mpr ⟨u, hu,
        List.mem_cons_of_mem _ (List.mem_cons_self _ _)⟩)))

/-- Allocated `Z` variables are binary under admissibility. -/
lemma admissible_Z {inst : Instance} {a : Assignment}
    (h : admissible inst a = true) {i j : Nat} {u : Node}
    (hi : i ∈ inst.ad.aircraft) (hj : j ∈ inst.ad.aircraft) (hij : i ≠ j)
    (hu : u ∈ inst.gd.nodes) : a.Z i j u = 0 ∨ a.Z i j u = 1 := by
  unfold admissible at h
  simp only [Bool.and_eq_true, List.all_eq_true] at h
  exact of_decide_eq_true (h.1.1.1 (i, j, u)
    (List.mem_flatMap.mpr ⟨i, hi, List.mem_flatMap.mpr ⟨j, hj, by
      rw [if_pos hij]; exact List.mem_map.mpr ⟨u, hu, rfl⟩⟩⟩))

/-! ## Claim theorems -/

/-- C1 (amended).  For every scenario instance, admissible assignment
satisfying the built model, ordered pair of distinct listed aircraft and
node `u` of both footprints (and of the graph, so that `Z[i,j,u]` is an
allocated binary): if both aircraft's selected routes pass through `u`
(route-membership indicator sums equal to 1) then `Z[i,j,u] + Z[j,i,u] = 1`;
if either indicator sum is 0 the sum is forced to 0.  For `u` outside the
two footprints no emitted constraint mentions `Z[i,j,u]` — see the
counterexample `c1_not_forced_outside_footprints`, so the original claim's
"forced to 0 when u is not in both footprints" does not hold. -/
theorem c1_sequencing_amended (inst : Instance) (a : Assignment) (i j : Nat) (u : Node)
    (hsat : satAll (build inst) a = true) (hadm : admissible inst a = true)
    (hi : i ∈ inst.ad.aircraft) (hj : j ∈ inst.ad.aircraft) (hij : i ≠ j)
    (hui : u ∈ inst.rd.all_nodes_per_aircraft i)
    (huj : u ∈ inst.rd.all_nodes_per_aircraft j)
    (hun : u ∈ inst.gd.nodes) :
    (routeNodeSum a i (inst.rd.routes i) u = 1 →
      routeNodeSum a j (inst.rd.routes j) u = 1 →
      a.Z i j u + a.Z j i u = 1) ∧
    ((routeNodeSum a i (inst.rd.routes i) u = 0 ∨
      routeNodeSum a j (inst.rd.routes j) u = 0) →
      a.Z i j u + a.Z j i u = 0) := by
  have hseq := sequencing_bounds (satAll_sub hsat sequencing_mem_classes) hi hj hij hui huj
  have hdom := domain_z_bounds (satAll_sub hsat domain_mem_classes) hi hj hij hui huj
  have hdom' := domain_z_bounds (satAll_sub hsat domain_mem_classes) hj hi hij.symm huj hui
  have hzij := admissible_Z hadm hi hj hij hun
  have hzji := admissible_Z hadm hj hi hij.symm hun
  have hzij0 : 0 ≤ a.Z i j u := by rcases hzij with h | h <;> simp [h]
  have hzji0 : 0 ≤ a.Z j i u := by rcases hzji with h | h <;> simp [h]
  constructor
  · intro hgi hgj
    rw [hgi, hgj] at hseq
    linarith [hseq.1, hseq.2]
  · intro hg0
    rcases hg0 with hg0 | hg0
    · have h1 : a.Z i j u ≤ 0 := by rw [hg0] at hdom; exact hdom.1
      have h2 : a.Z j i u ≤ 0 := by rw [hg0] at hdom'; exact hdom'.2
      linarith
    · have h1 : a.Z i j u ≤ 0 := by rw [hg0] at hdom; exact hdom.2
      have h2 : a.Z j i u ≤ 0 := by rw [hg0] at hdom'; exact hdom'.1
      linarith

/-- C1 (counterexample to the claim as stated).  In the two-aircraft
scenario, `cexA` respects every variable declaration and satisfies every
emitted constraint of the built model, yet at node 3 — a node allocated for
`Z` but not in aircraft 1's footprint, hence not in both footprints —
`Z[1,2,3] + Z[2,1,3] = 1`, not 0: the emitted constraints do not force the
sum to 0 at nodes outside both footprints. -/
theorem c1_not_forced_outside_footprints :
    admissible tinyInst cexA = true ∧
    satAll (build tinyInst) cexA = true ∧
    (3 ∉ tinyInst.rd.all_nodes_per_aircraft 1) ∧
    (3 ∈ tinyInst.gd.nodes) ∧
    cexA.Z 1 2 3 + cexA.Z 2 1 3 = 1 :=
  ⟨by with_unfolding_all decide, by with_unfolding_all decide, by decide, by decide,
   by with_unfolding_all decide⟩

/-- C1 (witness).  The amended theorem applied to the two-aircraft scenario
at the shared footprint node 2 with the satisfying assignment `cexA`. -/
theorem c1_sequencing_amended_witness :
    ((routeNodeSum cexA 1 (tinyInst.rd.routes 1) 2 = 1 →
       routeNodeSum cexA 2 (tinyInst.rd.routes 2) 2 = 1 →
       cexA.Z 1 2 2 + cexA.Z 2 1 2 = 1) ∧
     ((routeNodeSum cexA 1 (tinyInst.rd.routes 1) 2 = 0 ∨
       routeNodeSum cexA 2 (tinyInst.rd.routes 2) 2 = 0) →
       cexA.Z 1 2 2 + cexA.Z 2 1 2 = 0)) :=
  c1_sequencing_amended tinyInst cexA 1 2 2 (by with_unfolding_all decide)
    (by with_unfolding_all decide) (by decide) (by decide) (by decide) (by decide)
    (by decide) (by decide)

/-- C2.  For every scenario instance and every listed aircraft `i`, any
assignment satisfying the Domain family's emitted constraints has
`sum_r Gamma[i,r] = 1` over `i`'s candidate route indices: the
route-selection constraint (equation 6) is emitted for every aircraft,
whatever the length of its route list. -/
theorem c2_route_selection (inst : Instance) (a : Assignment)
    (h : satAll (domainConstraints inst) a = true) (i : Nat)
    (hi : i ∈ inst.ad.aircraft) : gammaTotal a i (inst.rd.routes i) = 1 :=
  domain_route_sel h hi

/-- C2 (witness).  The route-selection theorem applied to the two-aircraft
scenario: aircraft 1 has a single candidate route and the satisfying
assignment selects it. -/
theorem c2_route_selection_witness :
    gammaTotal cexA 1 (tinyInst.rd.routes 1) = 1 :=
  c2_route_selection tinyInst cexA (by with_unfolding_all decide) 1 (by decide)

/-- C4 (counterexample to the claim as stated).  In the two-aircraft
scenario the allocation of src/main.py creates `Z[1,2,3]` and `t[1,3]`
although node 3 is not in aircraft 1's footprint (hence not in the
footprint intersection): allocation ranges over all graph nodes, not the
footprint-scoped index sets. -/
theorem c4_not_footprint_scoped :
    (1, 2, 3) ∈ zIndex tinyInst ∧ (1, 3) ∈ tIndex tinyInst ∧
    3 ∉ tinyInst.rd.all_nodes_per_aircraft 1 :=
  ⟨by decide, by decide, by decide⟩

/-- C4 (amended).  The variable registry of `scenario_setup` allocates over
the full cross product: `Z[i,j,u]` exists exactly for ordered pairs of
distinct listed aircraft and arbitrary graph nodes `u`, and `t[i,u]` exists
exactly for listed aircraft and arbitrary graph nodes, regardless of
footprints. -/
theorem c4_allocation_characterisation :
    (∀ (inst : Instance) (i j : Nat) (u : Node),
      (i, j, u) ∈ zIndex inst ↔
        i ∈ inst.ad.aircraft ∧ j ∈ inst.ad.aircraft ∧ i ≠ j ∧ u ∈ inst.gd.nodes) ∧
    (∀ (inst : Instance) (i : Nat) (u : Node),
      (i, u) ∈ tIndex inst ↔ i ∈ inst.ad.aircraft ∧ u ∈ inst.gd.nodes) := by
  constructor
  · intro inst i j u
    constructor
    · intro h
      obtain ⟨x, hx, h⟩ := List.mem_flatMap.mp h
      obtain ⟨y, hy, h⟩ := List.mem_flatMap.mp h
      by_cases hxy : x ≠ y
      · rw [if_pos hxy] at h
        obtain ⟨w, hw, he⟩ := List.mem_map.mp h
        obtain ⟨rfl, rfl, rfl⟩ := Prod.mk.injEq .. ▸ he
        exact ⟨hx, hy, hxy, hw⟩
      · rw [if_neg hxy] at h
        exact absurd h (List.not_mem_nil _)
    · rintro ⟨hi, hj, hij, hu⟩
      exact List.mem_flatMap.mpr ⟨i, hi, List.mem_flatMap.mpr ⟨j, hj, by
        rw [if_pos hij]; exact List.mem_map.mpr ⟨u, hu, rfl⟩⟩⟩
  · intro inst i u
    constructor
    · intro h
      obtain ⟨x, hx, h⟩ := List.mem_flatMap.mp h
      obtain ⟨w, hw, he⟩ := List.mem_map.mp h
      obtain ⟨rfl, rfl⟩ := Prod.mk.injEq .. ▸ he
      exact ⟨hx, hw⟩
    · rintro ⟨hi, hu⟩
      exact List.mem_flatMap.mpr ⟨i, hi, List.mem_map.mpr ⟨u, hu, rfl⟩⟩

/-! Family-tag lemmas: every constraint a family's emitter produces carries
that family's tag. -/

lemma fam_of_pairLoop {A : List Nat} {g : Nat → Nat → List Constr} {c : Constr}
    {fm : Family} (hg : ∀ i j c', c' ∈ g i j → c'.fam = fm)
    (hc : c ∈ A.flatMap (fun x => A.flatMap (fun y => if x ≠ y then g x y else []))) :
    c.fam = fm := by
  obtain ⟨i, _, hc⟩ := List.mem_flatMap.mp hc
  obtain ⟨j, _, hc⟩ := List.mem_flatMap.mp hc
  by_cases hij : i ≠ j
  · rw [if_pos hij] at hc
    exact hg i j c hc
  · rw [if_neg hij] at hc
    exact absurd hc (List.not_mem_nil _)

lemma fam_of_domain {inst : Instance} {c : Constr}
    (hc : c ∈ domainConstraints inst) : c.fam = Family.domain := by
  rcases List.mem_append.mp hc with h | h
  · obtain ⟨i, _, rfl⟩ := List.mem_map.mp h
    rfl
  · refine fam_of_pairLoop (fun i j c' hc' => ?_) h
    obtain ⟨u, _, hc'⟩ := List.mem_flatMap.mp hc'
    rcases hc' with _ | ⟨_, hc'⟩
    · rfl
    · rcases hc' with _ | ⟨_, hc'⟩
      · rfl
      · exact absurd hc' (List.not_mem_nil _)

lemma fam_of_sequencing {inst : Instance} {c : Constr}
    (hc : c ∈ sequencingConstraints inst) : c.fam = Family.sequencing := by
  refine fam_of_pairLoop (fun i j c' hc' => ?_) hc
  obtain ⟨u, _, hc'⟩ := List.mem_flatMap.mp hc'
  rcases hc' with _ | ⟨_, hc'⟩
  · rfl
  · rcases hc' with _ | ⟨_, hc'⟩
    · rfl
    · exact absurd hc' (List.not_mem_nil _)

lemma fam_of_overtaking {inst : Instance} {c : Constr}
    (hc : c ∈ overtakingConstraints inst) : c.fam = Family.overtaking := by
  rcases List.mem_append.mp hc with h | h
  · refine fam_of_pairLoop (fun i j c' hc' => ?_) h
    obtain ⟨e, _, hc'⟩ := List.mem_flatMap.mp hc'
    rcases hc' with _ | ⟨_, hc'⟩
    · rfl
    · rcases hc' with _ | ⟨_, hc'⟩
      · rfl
      · exact absurd hc' (List.not_mem_nil _)
  · refine fam_of_pairLoop (fun i j c' hc' => ?_) h
    obtain ⟨e, _, hc'⟩ := List.mem_flatMap.mp hc'
    by_cases hrev : (e.2, e.1) ∈ inst.rd.all_edges_per_aircraft j
    · rw [if_pos hrev] at hc'
      rcases hc' with _ | ⟨_, hc'⟩
      · rfl
      · rcases hc' with _ | ⟨_, hc'⟩
        · rfl
        · exact absurd hc' (List.not_mem_nil _)
    · rw [if_neg hrev] at hc'
      exact absurd hc' (List.not_mem_nil _)

lemma fam_of_release {inst : Instance} {c : Constr}
    (hc : c ∈ releaseConstraints inst) : c.fam = Family.release := by
  rcases List.mem_append.mp hc with h | h
  · obtain ⟨j, _, rfl⟩ := List.mem_map.mp h
    rfl
  · obtain ⟨i, _, rfl⟩ := List.mem_map.mp h
    rfl

lemma fam_of_speed {inst : Instance} {c : Constr}
    (hc : c ∈ speedConstraints inst) : c.fam = Family.speed := by
  obtain ⟨i, _, hc⟩ := List.mem_flatMap.mp hc
  obtain ⟨e, _, hc⟩ := List.mem_flatMap.mp hc
  rcases hc with _ | ⟨_, hc⟩
  · rfl
  · rcases hc with _ | ⟨_, hc⟩
    · rfl
    · exact absurd hc (List.not_mem_nil _)

lemma fam_of_separation {inst : Instance} {c : Constr}
    (hc : c ∈ separationConstraints inst) : c.fam = Family.separation := by
  rcases List.mem_append.mp hc with h | h
  · refine fam_of_pairLoop (fun i j c' hc' => ?_) h
    obtain ⟨e, _, hc'⟩ := List.mem_flatMap.mp hc'
    by_cases hsh : e.1 ∈ sharedNodes inst.rd i j
    · rw [if_pos hsh] at hc'
      rcases hc' with _ | ⟨_, hc'⟩
      · rfl
      · exact absurd hc' (List.not_mem_nil _)
    · rw [if_neg hsh] at hc'
      exact absurd hc' (List.not_mem_nil _)
  · refine fam_of_pairLoop (fun i j c' hc' => ?_) h
    obtain ⟨e, _, hc'⟩ := List.mem_flatMap.mp hc'
    by_cases hsh : e.2 ∈ sharedNodes inst.rd i j
    · rw [if_pos hsh] at hc'
      rcases hc' with _ | ⟨_, hc'⟩
      · rfl
      · exact absurd hc' (List.not_mem_nil _)
    · rw [if_neg hsh] at hc'
      exact absurd hc' (List.not_mem_nil _)

/-- C5 (counterexample to the claim as stated).  The built model of the
two-aircraft scenario has 18 constraints and none of them belongs to the
RunwayOccupancy or Capacity family: `constraints_setup` comments those two
classes out, so the built model does not contain them. -/
theorem c5_missing_runway_and_capacity :
    (build tinyInst).length = 18 ∧
    ((build tinyInst).filter (fun c => c.fam == Family.runwayOccupancy)).length = 0 ∧
    ((build tinyInst).filter (fun c => c.fam == Family.capacity)).length = 0 :=
  ⟨by decide, by decide, by decide⟩

/-- C5 (amended).  For every scenario instance, model construction emits
constraints from exactly the six invoked families — Domain, Sequencing,
Overtaking, Release, Speed, Separation; the runway-occupancy and capacity
families are never emitted. -/
theorem c5_only_six_families : ∀ (inst : Instance),
    (build inst).all (fun c =>
      c.fam == Family.domain || c.fam == Family.sequencing ||
      c.fam == Family.overtaking || c.fam == Family.release ||
      c.fam == Family.speed || c.fam == Family.separation) = true := by
  intro inst
  rw [List.all_eq_true]
  intro c hc
  obtain ⟨f, hf, hcf⟩ := List.mem_flatMap.mp hc
  rcases hf with _ | ⟨_, hf⟩
  · rw [fam_of_domain hcf]; rfl
  rcases hf with _ | ⟨_, hf⟩
  · rw [fam_of_sequencing hcf]; rfl
  rcases hf with _ | ⟨_, hf⟩
  · rw [fam_of_overtaking hcf]; rfl
  rcases hf with _ | ⟨_, hf⟩
  · rw [fam_of_release hcf]; rfl
  rcases hf with _ | ⟨_, hf⟩
  · rw [fam_of_speed hcf]; rfl
  rcases hf with _ | ⟨_, hf⟩
  · rw [fam_of_separation hcf]; rfl
  exact absurd hf (List.not_mem_nil _)

lemma speed_mem_classes : speedConstraints ∈ constraintClasses :=
  List.Mem.tail _ (List.Mem.tail _ (List.Mem.tail _ (List.Mem.tail _ (List.Mem.head _))))

/-- Equations 19 and 20 as emitted by the active Speed class. -/
lemma speed_bounds {inst : Instance} {a : Assignment}
    (h : satAll (speedConstraints inst) a = true) {i : Nat} {e : Edge}
    (hi : i ∈ inst.ad.aircraft) (he : e ∈ inst.rd.all_edges_per_aircraft i) :
    a.t i e.2 - a.t i e.1 ≤
      (inst.gd.length (min e.1 e.2, max e.1 e.2) / inst.gd.Smax (min e.1 e.2, max e.1 e.2)) *
        (M - M * routeEdgeSum a i (inst.rd.routes i) e +
         routeEdgeSum a i (inst.rd.routes i) e) ∧
    a.t i e.2 - a.t i e.1 ≥
      (inst.gd.length (min e.1 e.2, max e.1 e.2) / inst.gd.Smin (min e.1 e.2, max e.1 e.2)) *
        (M * routeEdgeSum a i (inst.rd.routes i) e - M +
         routeEdgeSum a i (inst.rd.routes i) e) := by
  constructor
  · exact of_decide_eq_true (satAll_mem h (List.mem_flatMap.mpr ⟨i, hi,
      List.mem_flatMap.mpr ⟨e, he, List.mem_cons_self _ _⟩⟩))
  · exact of_decide_eq_true (satAll_mem h (List.mem_flatMap.mpr ⟨i, hi,
      List.mem_flatMap.mpr ⟨e, he, List.mem_cons_of_mem _ (List.mem_cons_self _ _)⟩⟩))

/-- C3 (evaluation at the failing input).  With scenario_1's parameters
(`Smax = 15 > Smin = 5`) on a single selected length-100 edge, the Speed
class's two inequalities are `t[v]-t[u] ≤ 100/15` (upper bound from `Smax`)
and `t[v]-t[u] ≥ 100/5` (lower bound from `Smin`) — an empty interval: no
assignment at all satisfies the built model, where the claim says the
feasible transit-time interval is `[100/15, 100/5]`. -/
theorem c3_speed_bounds_swapped_infeasible :
    ∀ a : Assignment, satAll (build speedInst) a = false := by
  intro a
  by_contra hne
  rw [Bool.not_eq_false] at hne
  have h6 : gammaTotal a 1 (speedInst.rd.routes 1) = 1 :=
    domain_route_sel (satAll_sub hne domain_mem_classes) (by decide)
  have hsp := speed_bounds (satAll_sub hne speed_mem_classes)
    (i := 1) (e := (1, 2)) (by decide) (by decide)
  have hrange : List.range (speedInst.rd.routes 1).length = [0] := by decide
  have hgam : gammaTotal a 1 (speedInst.rd.routes 1) = a.Gamma 1 0 := by
    rw [gammaTotal, hrange]; simp
  have hfil : (List.range (speedInst.rd.routes 1).length).filter
      (fun r => decide (((1, 2) : Edge) ∈
        ((speedInst.rd.routes 1).getD r { nodes := [], edges := [] }).edges)) = [0] := by
    decide
  have hedge : routeEdgeSum a 1 (speedInst.rd.routes 1) (1, 2) = a.Gamma 1 0 := by
    rw [routeEdgeSum, hfil]; simp
  rw [hgam] at h6
  obtain ⟨hup, hlo⟩ := hsp
  rw [hedge, h6] at hup hlo
  have hlen : speedInst.gd.length (min 1 2, max 1 2) = 100 := rfl
  have hsmax : speedInst.gd.Smax (min 1 2, max 1 2) = 15 := rfl
  have hsmin : speedInst.gd.Smin (min 1 2, max 1 2) = 5 := rfl
  rw [hlen, hsmax] at hup
  rw [hlen, hsmin] at hlo
  rw [M] at hup hlo
  norm_num at hup hlo
  linarith

/-- C6 (evaluation at the failing input).  For the aircraft with no path
from its origin to its destination, `generate_route_data` returns an empty
route list, no error is raised, model building still emits constraints
(two of them: the empty route-selection sum `0 = 1` and the release
constraint), and the resulting model is infeasible for every assignment —
a silently infeasible model instead of the hard configuration error the
claim describes. -/
theorem c6_no_route_emits_infeasible_model :
    (generate_route_data discAD discGD).routes 1 = [] ∧
    (build discInst).length = 2 ∧
    ∀ a : Assignment, satAll (build discInst) a = false := by
  refine ⟨by decide, by decide, fun a => ?_⟩
  by_contra hne
  rw [Bool.not_eq_false] at hne
  have h6 : gammaTotal a 1 (discInst.rd.routes 1) = 1 :=
    domain_route_sel (satAll_sub hne domain_mem_classes) (by decide)
  have hr : discInst.rd.routes 1 = [] := by decide
  rw [hr] at h6
  rw [gammaTotal] at h6
  norm_num at h6

/-- C7 (amended).  On the scenario_1 reference graph, `find_paths` from
node 1 to node 5 scans each listed edge in both orientations, so it returns
fourteen paths, with duplicates (the explicitly listed reverse edges
`(3,2)`/`(2,3)` and `(3,4)`/`(4,3)` each double the branches through them)
and with simple paths beyond the two the claim lists, such as `[1,2,5]`. -/
theorem c7_find_paths_fourteen :
    find_paths scenario1Graph 1 5 =
      [[1, 2, 3, 4, 5], [1, 2, 3, 4, 5], [1, 2, 3, 5], [1, 2, 3, 4, 5],
       [1, 2, 3, 4, 5], [1, 2, 3, 5], [1, 2, 5],
       [1, 4, 3, 2, 5], [1, 4, 3, 5], [1, 4, 3, 2, 5], [1, 4, 5],
       [1, 4, 3, 2, 5], [1, 4, 3, 5], [1, 4, 3, 2, 5]] := by decide

/-- C7 (counterexample to the claim as stated).  The enumeration from 1 to
5 on the reference graph does not yield exactly the two claimed routes: it
yields fourteen paths, among them `[1,2,5]`, and the route `[1,2,3,5]`
appears twice. -/
theorem c7_not_exactly_two :
    (find_paths scenario1Graph 1 5).length = 14 ∧
    [1, 2, 5] ∈ find_paths scenario1Graph 1 5 ∧
    (find_paths scenario1Graph 1 5).count [1, 2, 3, 5] = 2 :=
  ⟨by decide, by decide, by decide⟩

/-! Membership lemmas for the footprint constructions. -/

lemma mem_dedupKeepFirst {α : Type} [DecidableEq α] {x : α} {l : List α} :
    x ∈ dedupKeepFirst l ↔ x ∈ l := by
  induction l with
  | nil => simp [dedupKeepFirst]
  | cons a l ih =>
    by_cases hxa : x = a
    · subst hxa
      simp [dedupKeepFirst]
    · simp [dedupKeepFirst, List.mem_filter, hxa, ih]

lemma mem_insertAsc {x y : Node} {l : List Node} :
    x ∈ insertAsc y l ↔ x = y ∨ x ∈ l := by
  induction l with
  | nil => simp [insertAsc]
  | cons z l ih =>
    by_cases h : y ≤ z
    · simp [insertAsc, h]
    · simp [insertAsc, h, ih]
      tauto

lemma mem_setList {x : Node} {l : List Node} : x ∈ setList l ↔ x ∈ l := by
  rw [setList]
  have : ∀ m : List Node, x ∈ m.foldr insertAsc [] ↔ x ∈ m := by
    intro m
    induction m with
    | nil => simp
    | cons a m ih => simp [mem_insertAsc, ih]
  rw [this, mem_dedupKeepFirst]

lemma foldr_append_eq_flatMap {α β : Type} (f : α → List β) (l : List α) :
    l.foldr (fun p acc => f p ++ acc) [] = l.flatMap f := by
  induction l with
  | nil => rfl
  | cons p l ih => simp [ih]

lemma mem_endpoints {x : Node} {l : List Edge} :
    x ∈ l.foldr (fun e acc => e.1 :: e.2 :: acc) [] ↔ ∃ e ∈ l, x = e.1 ∨ x = e.2 := by
  induction l with
  | nil => simp
  | cons e l ih =>
    simp only [List.foldr_cons, List.mem_cons, ih]
    constructor
    · rintro (h | h | ⟨w, hw, h⟩)
      · exact ⟨e, Or.inl rfl, Or.inl h⟩
      · exact ⟨e, Or.inl rfl, Or.inr h⟩
      · exact ⟨w, Or.inr hw, h⟩
    · rintro ⟨w, hw, h⟩
      rcases hw with rfl | hw
      · rcases h with h | h
        · exact Or.inl h
        · exact Or.inr (Or.inl h)
      · exact Or.inr (Or.inr ⟨w, hw, h⟩)

/-- C8 (amended).  For every graph and origin/destination pair, the
generated `all_edges_per_aircraft` entry is the first-appearance-order
deduplication of the concatenation of the candidate routes' edge lists, and
the `all_nodes_per_aircraft` entry holds exactly the endpoints of those
footprint edges (in set-enumeration order, not first-appearance order) —
so a node of a candidate route that lies on no route edge, as for a trivial
single-node route, is absent from the node footprint. -/
theorem c8_footprint_construction : ∀ (gd : GraphData) (o d : Node),
    (routeEntry gd o d).2.1 =
      dedupKeepFirst ((routeEntry gd o d).1.flatMap Route.edges) ∧
    (∀ x : Node, x ∈ (routeEntry gd o d).2.2 ↔
      ∃ e ∈ (routeEntry gd o d).2.1, x = e.1 ∨ x = e.2) := by
  intro gd o d
  constructor
  · show dedupKeepFirst ((find_paths gd o d).foldr (fun p acc => pathEdges p ++ acc) []) =
      dedupKeepFirst (((find_paths gd o d).map
        (fun p => { nodes := p, edges := pathEdges p : Route })).flatMap Route.edges)
    rw [foldr_append_eq_flatMap, List.flatMap_map]
  · intro x
    show x ∈ setList (((routeEntry gd o d).2.1).foldr (fun e acc => e.1 :: e.2 :: acc) []) ↔ _
    rw [mem_setList, mem_endpoints]

/-- C8 (counterexample to the claim as stated).  For the aircraft whose
origin equals its destination, the single candidate route is the trivial
path `[4]`; the union of the routes' node lists contains 4, but the
generated `all_nodes_per_aircraft` entry is empty, since the code derives
it from the edge endpoints rather than the routes' node lists. -/
theorem c8_trivial_route_node_missing :
    (generate_route_data trivAD trivGD).routes 7 = [{ nodes := [4], edges := [] }] ∧
    (generate_route_data trivAD trivGD).all_nodes_per_aircraft 7 = [] ∧
    4 ∈ ((generate_route_data trivAD trivGD).routes 7).flatMap Route.nodes :=
  ⟨by decide, by decide, by decide⟩

/-! ## Variable subscripts as the registry sees them (claim C9)

`t` is allocated over `(aircraft, node)` pairs, while
`Capacity.add_constraints` (src/constraints.py lines 415-431) subscripts
`t` with `(aircraft, exit edge)` pairs.  To compare the two subscript
families in one type, a `t` subscript's second component is a node
injected left or an edge injected right. -/

/-- A second subscript of `t`: a node (as allocated) or an edge (as the
Capacity class writes `t[i, l]`). -/
abbrev TSub := Node ⊕ Edge

/-- Membership in a `t`-subscript list is decidable (written out so that
the kernel can evaluate it). -/
instance decMemTSub : ∀ (a : Nat × TSub) (l : List (Nat × TSub)), Decidable (a ∈ l)
  | _, [] => isFalse (fun h => absurd h (List.not_mem_nil _))
  | a, x :: xs =>
    if h : a = x then isTrue (h ▸ List.mem_cons_self _ _)
    else
      match decMemTSub a xs with
      | isTrue m => isTrue (List.mem_cons_of_mem _ m)
      | isFalse m => isFalse (fun hm => (List.mem_cons.mp hm).elim h m)

/-- The `t` keys `scenario_setup` allocates:
`[(i, u) for i in aircraft for u in nodes]`. -/
def allocatedTKeys (aircraft : List Nat) (nodes : List Node) : List (Nat × TSub) :=
  aircraft.flatMap (fun i => nodes.map (fun u => (i, Sum.inl u)))

/-- The `t` subscripts `Capacity.add_constraints` references: `t[i, l]` for
ordered pairs of distinct arrival aircraft `i ≠ j` and exit edges `l`. -/
def capacityTRefs (arrivals : List Nat) (exit_edges : List Edge) : List (Nat × TSub) :=
  arrivals.flatMap (fun i => arrivals.flatMap (fun j =>
    if i ≠ j then exit_edges.map (fun l => (i, Sum.inr l)) else []))

/-- The node list of the Dusseldorf graph (src/scenarios.py line 223). -/
def dusNodes : List Node :=
  [1, 2, 3, 4, 5, 6, 7, 8, 9, 10, 11, 12, 13, 14, 15, 16, 17, 18, 19, 20,
   21, 22, 23, 24, 25, 26, 27, 28, 29, 30, 31, 32, 33, 34, 35, 36, 37, 38,
   39, 40, 41, 42, 43, 44, 45, 46, 47, 48, 49, 50]

/-- The `exit_edges` of the Dusseldorf graph (src/scenarios.py line 279). -/
def dusExitEdges : List Edge := [(3, 48), (4, 49), (5, 50)]

/-- C9 (evaluation at the failing input).  With the Dusseldorf scenario's
second arrival aircraft restored (arrivals `[5, 6]`, fleet `[1, 5, 6]`, as
the commented-out entries of `Dusseldorf.get_parameters` list them),
`Capacity.add_constraints` references the subscript `t[5, (3, 48)]` — an
(aircraft, edge) pair — but the registry allocates `t` only at
(aircraft, node) pairs, so the reference is outside the allocated index set
(a `KeyError` in the gurobipy tupledict), contradicting the claim that
every referenced index is allocated. -/
theorem c9_capacity_reference_unallocated :
    (5, Sum.inr ((3, 48) : Edge)) ∈ capacityTRefs [5, 6] dusExitEdges ∧
    (5, Sum.inr ((3, 48) : Edge)) ∉ allocatedTKeys [1, 5, 6] dusNodes :=
  ⟨by decide, by decide⟩

/-! ## The dictionary layer (claim C10)

`Scenario1.get_parameters` hard-codes a `route_data` dictionary with the
keys `"routes"` and `"all_edges_per_aircraft"` only, while
`generate_route_data` also produces `"all_nodes_per_aircraft"`.  The
constraint classes read the merged variables dictionary; a missing key is a
Python `KeyError`, modelled with `Except`.  Only the three route_data keys
differ between scenarios, so only they are optional here. -/

/-- The merged variables dictionary at key-presence level. -/
structure VarsDict where
  ad : AircraftData
  gd : GraphData
  routes : Option (Nat → List Route)
  all_edges_per_aircraft : Option (Nat → List Edge)
  all_nodes_per_aircraft : Option (Nat → List Node)

/-- Dictionary access: a missing key raises `KeyError`. -/
def getKey {α : Type} (v : Option α) (k : String) : Except String α :=
  match v with
  | some x => Except.ok x
  | none => Except.error ("KeyError: " ++ k)

/-- Whether the aircraft list contains an ordered pair of distinct
aircraft, i.e. whether the pair loops of the constraint classes execute
their bodies at least once. -/
def hasDistinctPair (A : List Nat) : Bool :=
  A.any (fun i => A.any (fun j => decide (i ≠ j)))

/-- `Domain.add_constraints` at dictionary level: equation 6 dereferences
`routes`; the equation 7/8 pair loop dereferences `all_nodes_per_aircraft`
as soon as one ordered pair of distinct aircraft exists.  When no such
pair exists the 7/8 part is empty and the key is never read (the dummy
argument below is unused by `domainConstraints` in that case). -/
def domainD (v : VarsDict) : Except String (List Constr) := do
  let r ← getKey v.routes "routes"
  if hasDistinctPair v.ad.aircraft then
    let an ← getKey v.all_nodes_per_aircraft "all_nodes_per_aircraft"
    pure (domainConstraints ⟨v.ad, v.gd, ⟨r, fun _ => [], an⟩⟩)
  else
    pure (domainConstraints ⟨v.ad, v.gd, ⟨r, fun _ => [], fun _ => []⟩⟩)

/-- `Sequencing.add_constraints` at dictionary level (key reads begin with
the pair loop's `all_nodes_per_aircraft` dereference). -/
def sequencingD (v : VarsDict) : Except String (List Constr) := do
  if hasDistinctPair v.ad.aircraft then
    let an ← getKey v.all_nodes_per_aircraft "all_nodes_per_aircraft"
    let r ← getKey v.routes "routes"
    pure (sequencingConstraints ⟨v.ad, v.gd, ⟨r, fun _ => [], an⟩⟩)
  else
    pure []

/-- `Overtaking.add_constraints` at dictionary level. -/
def overtakingD (v : VarsDict) : Except String (List Constr) := do
  if hasDistinctPair v.ad.aircraft then
    let ae ← getKey v.all_edges_per_aircraft "all_edges_per_aircraft"
    let r ← getKey v.routes "routes"
    pure (overtakingConstraints ⟨v.ad, v.gd, ⟨r, ae, fun _ => []⟩⟩)
  else
    pure []

/-- `Release.add_constraints` at dictionary level: reads no route_data
key. -/
def releaseD (v : VarsDict) : Except String (List Constr) :=
  Except.ok (releaseConstraints ⟨v.ad, v.gd, ⟨fun _ => [], fun _ => [], fun _ => []⟩⟩)

/-- `Speed.add_constraints` at dictionary level: the per-aircraft loop
dereferences `all_edges_per_aircraft` whenever an aircraft exists. -/
def speedD (v : VarsDict) : Except String (List Constr) := do
  if v.ad.aircraft.isEmpty then
    pure []
  else
    let ae ← getKey v.all_edges_per_aircraft "all_edges_per_aircraft"
    let r ← getKey v.routes "routes"
    pure (speedConstraints ⟨v.ad, v.gd, ⟨r, ae, fun _ => []⟩⟩)

/-- `Separation.add_constraints` at dictionary level. -/
def separationD (v : VarsDict) : Except String (List Constr) := do
  if hasDistinctPair v.ad.aircraft then
    let ae ← getKey v.all_edges_per_aircraft "all_edges_per_aircraft"
    let an ← getKey v.all_nodes_per_aircraft "all_nodes_per_aircraft"
    let r ← getKey v.routes "routes"
    pure (separationConstraints ⟨v.ad, v.gd, ⟨r, ae, an⟩⟩)
  else
    pure []

/-- `TaxiSchedulingModel.constraints_setup` at dictionary level: the six
active classes run in list order; the first `KeyError` aborts the build. -/
def constraints_setup (v : VarsDict) : Except String (List Constr) := do
  let c1 ← domainD v
  let c2 ← sequencingD v
  let c3 ← overtakingD v
  let c4 ← releaseD v
  let c5 ← speedD v
  let c6 ← separationD v
  pure (c1 ++ c2 ++ c3 ++ c4 ++ c5 ++ c6)

/-- The `aircraft_data` of scenario_1 (src/scenarios.py lines 114-123).
`PBT` is keyed on the departures 1, 2 and `ETD` on the arrival 3; the
functions below agree with the dictionaries on those keys, the only keys
the code reads. -/
def scenario1AD : AircraftData where
  aircraft := [1, 2, 3]
  departures := [1, 2]
  arrivals := [3]
  origin := fun i => if i = 1 then 1 else if i = 2 then 2 else 3
  destination := fun _ => 5
  PBT := fun i => if i = 1 then 10 else 15
  ETD := fun _ => 30

/-- The hard-coded `route_data["routes"]` of scenario_1 (src/scenarios.py
lines 149-161). -/
def scenario1Routes : Nat → List Route := fun i =>
  if i = 1 then
    [{ nodes := [1, 2, 3, 5], edges := [(1, 2), (2, 3), (3, 5)] },
     { nodes := [1, 4, 3, 5], edges := [(1, 4), (4, 3), (3, 5)] }]
  else if i = 2 then
    [{ nodes := [2, 3, 5], edges := [(2, 3), (3, 5)] }]
  else
    [{ nodes := [3, 4, 5], edges := [(3, 4), (4, 5)] },
     { nodes := [3, 2, 5], edges := [(3, 2), (2, 5)] }]

/-- The hard-coded `route_data["all_edges_per_aircraft"]` of scenario_1
(src/scenarios.py lines 164-168). -/
def scenario1AllEdges : Nat → List Edge := fun i =>
  if i = 1 then [(1, 2), (2, 3), (3, 5), (1, 4), (4, 3)]
  else if i = 2 then [(2, 3), (3, 5)]
  else [(3, 4), (4, 5), (3, 2), (2, 5)]

/-- The merged variables dictionary of scenario_1: its `route_data` holds
`routes` and `all_edges_per_aircraft` but no `all_nodes_per_aircraft`. -/
def scenario1Vars : VarsDict where
  ad := scenario1AD
  gd := scenario1Graph
  routes := some scenario1Routes
  all_edges_per_aircraft := some scenario1AllEdges
  all_nodes_per_aircraft := none

/-- The `aircraft_data` of the Dusseldorf scenario (src/scenarios.py
lines 188-220; aircraft 2-4 and 6-7 are commented out in the source, their
`PBT`/`ETD` entries remain). -/
def dusAD : AircraftData where
  aircraft := [1, 5]
  departures := [1]
  arrivals := [5]
  origin := fun i => if i = 1 then 37 else 3
  destination := fun i => if i = 1 then 11 else 41
  PBT := fun i => if i = 1 then 0 else if i = 2 then 40 else if i = 3 then 70 else 100
  ETD := fun i => if i = 5 then 0 else if i = 6 then 60 else 100

/-- The key set shared by the Dusseldorf `Smax` and `Smin` dictionaries
(src/scenarios.py lines 247-274; `(15, 24)` is listed twice there, as in
the `edges` list). -/
def dusSpeedKeys : List Edge :=
  [(5, 44), (44, 45), (45, 46), (46, 47), (25, 47),
   (11, 17), (12, 18), (13, 19), (14, 23), (15, 24),
   (16, 25), (17, 18), (18, 19), (20, 21), (21, 22),
   (22, 23), (23, 24), (24, 25), (25, 34), (33, 34),
   (32, 33), (31, 32), (30, 31), (29, 30), (28, 29),
   (27, 28), (26, 27), (17, 26), (18, 27), (19, 28),
   (20, 29), (21, 30), (22, 31), (23, 32), (24, 33),
   (26, 35), (27, 36), (28, 37), (29, 38), (30, 39),
   (31, 40), (32, 41), (33, 42), (34, 43), (35, 44),
   (8, 14), (9, 15), (10, 16), (15, 24), (3, 48), (8, 48),
   (4, 49), (9, 49), (5, 50), (10, 50), (44, 50),
   (48, 49), (49, 50)]

/-- The `graph_data` of the Dusseldorf scenario (src/scenarios.py
lines 222-280).  Every `Smax` entry is 9.03 and every `Smin` entry is 5.97;
in the `length` dictionary the duplicated key `(15, 24)` is first assigned
250 and then 50, and a Python dict keeps the last assignment. -/
def dusGD : GraphData where
  nodes := dusNodes
  edges :=
    [(3, 48), (8, 48), (4, 49), (9, 49), (5, 50), (10, 50), (44, 50),
     (44, 45), (45, 46), (46, 47), (25, 47), (11, 17), (12, 18), (13, 19),
     (14, 23), (15, 24), (16, 25), (17, 18), (18, 19), (20, 21), (21, 22),
     (22, 23), (23, 24), (24, 25), (25, 34), (33, 34), (32, 33), (31, 32),
     (30, 31), (29, 30), (28, 29), (27, 28), (26, 27), (17, 26), (18, 27),
     (19, 28), (20, 29), (21, 30), (22, 31), (23, 32), (24, 33), (26, 35),
     (27, 36), (28, 37), (29, 38), (30, 39), (31, 40), (32, 41), (33, 42),
     (34, 43), (48, 49), (49, 50), (8, 14), (9, 15), (10, 16), (15, 24)]
  length := fun e =>
    match e with
    | (3, 48) => 125 | (8, 48) => 125 | (4, 49) => 125 | (9, 49) => 125
    | (5, 50) => 125 | (10, 50) => 125
    | (44, 50) => 250 | (44, 45) => 125 | (45, 46) => 50 | (46, 47) => 250
    | (25, 47) => 250
    | (11, 17) => 250 | (12, 18) => 250 | (13, 19) => 250 | (14, 23) => 250
    | (15, 24) => 50
    | (16, 25) => 250 | (17, 18) => 125 | (18, 19) => 125 | (20, 21) => 125
    | (21, 22) => 125
    | (22, 23) => 125 | (23, 24) => 125 | (24, 25) => 125 | (25, 34) => 125
    | (33, 34) => 125
    | (32, 33) => 125 | (31, 32) => 125 | (30, 31) => 125 | (29, 30) => 125
    | (28, 29) => 125
    | (27, 28) => 125 | (26, 27) => 125 | (17, 26) => 125 | (18, 27) => 125
    | (19, 28) => 125
    | (20, 29) => 125 | (21, 30) => 125 | (22, 31) => 125 | (23, 32) => 125
    | (24, 33) => 125
    | (26, 35) => 125 | (27, 36) => 125 | (28, 37) => 125 | (29, 38) => 125
    | (30, 39) => 125
    | (31, 40) => 125 | (32, 41) => 125 | (33, 42) => 125 | (34, 43) => 125
    | (35, 44) => 125
    | (48, 49) => 125 | (49, 50) => 125 | (8, 14) => 50 | (9, 15) => 50
    | (10, 16) => 50
    | _ => 0
  Smax := fun e => if e ∈ dusSpeedKeys then 903 / 100 else 0
  Smin := fun e => if e ∈ dusSpeedKeys then 597 / 100 else 0
  Sep := 50
  exit_edges := dusExitEdges

/-- The merged variables dictionary of the Dusseldorf scenario: its
route_data is generated by `generate_route_data`, so all three keys are
present. -/
def scenario2Vars : VarsDict :=
  let rd := generate_route_data dusAD dusGD
  { ad := dusAD
    gd := dusGD
    routes := some rd.routes
    all_edges_per_aircraft := some rd.all_edges_per_aircraft
    all_nodes_per_aircraft := some rd.all_nodes_per_aircraft }

/-- `get_scenario` (src/scenarios.py lines 291-298), returning the merged
variables dictionary `scenario_setup` assembles for the named scenario. -/
def get_scenario (name : String) : Option VarsDict :=
  if name = "scenario_1" then some scenario1Vars
  else if name = "scenario_2" then some scenario2Vars
  else none

/-- C10.  Building the model for the scenario name "scenario_1" fails with
the missing-key error `KeyError: all_nodes_per_aircraft`, raised during
Domain constraint emission: scenario_1's hard-coded route_data carries the
keys `routes` and `all_edges_per_aircraft` but not
`all_nodes_per_aircraft`, which the Domain pair loop dereferences for the
fleet's distinct aircraft pairs, while scenario_2's generated route data
supplies that key. -/
theorem c10_scenario1_fails_on_missing_key :
    (get_scenario "scenario_1").map constraints_setup =
      some (Except.error "KeyError: all_nodes_per_aircraft") ∧
    domainD scenario1Vars = Except.error "KeyError: all_nodes_per_aircraft" ∧
    scenario1Vars.all_nodes_per_aircraft = none ∧
    scenario1Vars.routes.isSome = true ∧
    scenario1Vars.all_edges_per_aircraft.isSome = true ∧
    scenario2Vars.all_nodes_per_aircraft.isSome = true :=
  ⟨rfl, rfl, rfl, rfl, rfl, rfl⟩

end TaxiScheduling
